import Mathlib

/-!
Verification of the vote/poll consistency model of the Polly polling
application.

The development shallowly embeds the server actions of
lib/actions/{vote-actions,poll-actions,create-poll,comment-actions,get-polls}.ts
together with the relational store defined by the SQL schema (tables
polls, poll_options, votes, comments with their CHECK, UNIQUE and
FOREIGN KEY constraints, plus the stored procedure
get_options_with_vote_counts).

Modelling conventions:
- uuid values and user ids are abstracted to Nat; fresh ids are drawn
  from a monotone counter nextId (matching gen_random_uuid freshness and
  the identity sequence of votes.id).
- the ambient authenticated user (getCurrentUser) is passed explicitly
  as an Option Nat parameter.
- store statements are deterministic: a statement fails exactly when one
  of the declared constraints rejects it, and a failing multi-row
  statement changes nothing (statement-level atomicity of SQL).
- timestamps and cache revalidation calls are irrelevant to the claims
  and are omitted.
-/

namespace Polly

/-- Row of the polls table. -/
structure Poll where
  id : Nat
  title : String
  description : Option String
  created_by : Nat
deriving DecidableEq, Repr

/-- Row of the poll_options table. -/
structure PollOption where
  id : Nat
  poll_id : Nat
  option_text : String
deriving DecidableEq, Repr

/-- Row of the votes table. -/
structure Vote where
  id : Nat
  poll_id : Nat
  poll_option_id : Nat
  user_id : Nat
deriving DecidableEq, Repr

/-- Row of the comments table. -/
structure Comment where
  id : Nat
  poll_id : Nat
  user_id : Nat
  content : String
deriving DecidableEq, Repr

/-- The relational store: the four tables plus a fresh-id counter. -/
structure DB where
  polls : List Poll
  options : List PollOption
  votes : List Vote
  comments : List Comment
  nextId : Nat
deriving DecidableEq, Repr

/-- Store-level constraint violations, abstracting the SQLSTATE codes
the driver reports (23505 unique_violation, 23503 foreign_key_violation,
23514 check_violation). -/
inductive DbError where
  | uniqueViolation
  | fkViolation
  | checkViolation
deriving DecidableEq, Repr

/-- Leading and trailing whitespace removal on the character list. -/
def trimChars (l : List Char) : List Char :=
  ((l.dropWhile Char.isWhitespace).reverse.dropWhile Char.isWhitespace).reverse

/-- Whitespace trimming, as performed by the JS String trim method, the
zod .trim() transform and the SQL trim function. Defined by structural
recursion over the character list so concrete executions reduce. -/
def strTrim (s : String) : String := ⟨trimChars s.data⟩

/-- Case folding, as performed by the SQL lower function. -/
def strLower (s : String) : String := ⟨s.data.map Char.toLower⟩

/-- Normalization used by the unique_option_per_poll constraint:
UNIQUE (poll_id, (lower(trim(option_text)))). -/
def normText (s : String) : String := strLower (strTrim s)

/-- Some row of polls has the given id (FK target check). -/
def pollExists (db : DB) (pid : Nat) : Bool :=
  db.polls.any (fun p => p.id == pid)

/-- Some row of poll_options has the given id (FK target check). Note
that this is the only referential requirement the schema places on
votes.poll_option_id: the option may belong to any poll. -/
def optionExists (db : DB) (oid : Nat) : Bool :=
  db.options.any (fun o => o.id == oid)

/-- A vote row for the pair (poll, user) is present: the condition the
unique_vote_per_poll constraint UNIQUE (poll_id, user_id) rejects. -/
def hasVote (db : DB) (pid uid : Nat) : Bool :=
  db.votes.any (fun v => v.poll_id == pid && v.user_id == uid)

/-- Decides whether a list contains two equal elements. -/
def hasDup (l : List String) : Bool :=
  match l with
  | [] => false
  | x :: xs => xs.contains x || hasDup xs

/-- INSERT INTO polls: the CHECK (char_length(trim(title)) > 0) applies;
on success the new row is appended with a fresh id and returned
(matching .select().single() in createPoll). -/
def insertPollRow (db : DB) (title : String) (descr : Option String)
    (uid : Nat) : Except DbError (Poll × DB) :=
  if (strTrim title).length == 0 then .error .checkViolation
  else
    let p : Poll := ⟨db.nextId, title, descr, uid⟩
    .ok (p, { db with polls := db.polls ++ [p], nextId := db.nextId + 1 })

/-- Fresh poll_options rows for a batch insert, ids drawn consecutively. -/
def freshOptions (pid : Nat) (texts : List String) (startId : Nat) :
    List PollOption :=
  match texts with
  | [] => []
  | t :: ts => ⟨startId, pid, t⟩ :: freshOptions pid ts (startId + 1)

/-- Multi-row INSERT INTO poll_options. The statement is atomic: it
fails as a whole when the poll FK is unsatisfied, when some text
violates CHECK (char_length(trim(option_text)) > 0), or when
unique_option_per_poll is violated against existing rows of the same
poll or between two rows of the batch. -/
def insertOptionRows (db : DB) (pid : Nat) (texts : List String) :
    Except DbError DB :=
  if !pollExists db pid then .error .fkViolation
  else if texts.any (fun t => (strTrim t).length == 0) then .error .checkViolation
  else if texts.any (fun t => db.options.any
      (fun o => o.poll_id == pid && normText o.option_text == normText t)) then
    .error .uniqueViolation
  else if hasDup (texts.map normText) then .error .uniqueViolation
  else .ok { db with
    options := db.options ++ freshOptions pid texts db.nextId,
    nextId := db.nextId + texts.length }

/-- INSERT INTO votes: both FK targets must exist and
unique_vote_per_poll must not be violated. The RLS insert policy
(auth.uid() = user_id) holds trivially because the row is built from the
authenticated user id. -/
def insertVoteRow (db : DB) (pid oid uid : Nat) : Except DbError DB :=
  if !pollExists db pid then .error .fkViolation
  else if !optionExists db oid then .error .fkViolation
  else if hasVote db pid uid then .error .uniqueViolation
  else .ok { db with
    votes := db.votes ++ [⟨db.nextId, pid, oid, uid⟩],
    nextId := db.nextId + 1 }

/-- DELETE FROM poll_options WHERE poll_id = pid. Votes whose
poll_option_id references a deleted option are removed by the
ON DELETE CASCADE of votes.poll_option_id; votes referencing options of
other polls are untouched. -/
def deleteOptionsOfPoll (db : DB) (pid : Nat) : DB :=
  let deleted := db.options.filter (fun o => o.poll_id == pid)
  { db with
    options := db.options.filter (fun o => !(o.poll_id == pid)),
    votes := db.votes.filter
      (fun v => !(deleted.any (fun o => o.id == v.poll_option_id))) }

/-- DELETE FROM polls WHERE id = pid, with the cascades declared in the
schema: options of the poll, votes referencing the poll or one of its
deleted options, and comments of the poll. -/
def deletePollRow (db : DB) (pid : Nat) : DB :=
  let deletedOptions := db.options.filter (fun o => o.poll_id == pid)
  { db with
    polls := db.polls.filter (fun p => !(p.id == pid)),
    options := db.options.filter (fun o => !(o.poll_id == pid)),
    votes := db.votes.filter (fun v => !(v.poll_id == pid) &&
      !(deletedOptions.any (fun o => o.id == v.poll_option_id))),
    comments := db.comments.filter (fun c => !(c.poll_id == pid)) }

/-- UPDATE polls SET title, description WHERE id = pid. The title CHECK
constraint applies to every updated row. -/
def updatePollRow (db : DB) (pid : Nat) (title : String)
    (descr : Option String) : Except DbError DB :=
  if pollExists db pid && (strTrim title).length == 0 then .error .checkViolation
  else .ok { db with polls := db.polls.map (fun p =>
    if p.id == pid then { p with title := title, description := descr } else p) }

/-- Response shape shared by submitVote, updatePoll, deletePoll and
deleteComment: a success flag plus an optional error message. -/
structure ActionResponse where
  success : Bool
  error : Option String
deriving DecidableEq, Repr

/-- Models the TypeScript idiom data.description || null used by
createPoll and updatePoll: an empty string is stored as null. -/
def descriptionOrNull (d : Option String) : Option String :=
  match d with
  | none => none
  | some s => if s.isEmpty then none else some s

/-- submitVote from vote-actions.ts. The zod uuid-format check on the two
ids is vacuous in the Nat abstraction. After the authentication check the
vote is inserted directly; a unique-constraint violation (SQLSTATE 23505)
is translated to the already-voted message, and no check that the option
belongs to the poll is performed anywhere. -/
def submitVote (db : DB) (currentUser : Option Nat) (pollId optionId : Nat) :
    ActionResponse × DB :=
  match currentUser with
  | none => (⟨false, some "You must be logged in to vote"⟩, db)
  | some uid =>
    match insertVoteRow db pollId optionId uid with
    | .ok db2 => (⟨true, none⟩, db2)
    | .error e =>
      if e = DbError.uniqueViolation then
        (⟨false, some "You have already voted on this poll."⟩, db)
      else (⟨false, some "Failed to submit vote"⟩, db)

/-- Input option shape { text: string }. -/
structure PollOptionInput where
  text : String
deriving DecidableEq, Repr

/-- Input shape shared by CreatePollData and UpdatePollData. -/
structure PollInput where
  title : String
  description : Option String
  options : List PollOptionInput
deriving DecidableEq, Repr

/-- pollSchema.safeParse from create-poll.ts: title and every option text
are trimmed by z.string().trim() and must then be non-empty, and at least
two options are required; on success the parsed (trimmed) data is
returned. Pairwise distinctness of the options is not checked. -/
def pollSchemaParse (data : PollInput) : Option PollInput :=
  if (strTrim data.title).length == 0 then none
  else if data.options.any (fun o => (strTrim o.text).length == 0) then none
  else if data.options.length < 2 then none
  else some ⟨strTrim data.title, data.description,
    data.options.map (fun o => ⟨strTrim o.text⟩)⟩

/-- Response of createPoll. -/
structure CreatePollResponse where
  success : Bool
  pollId : Option Nat
  error : Option String
deriving DecidableEq, Repr

/-- createPoll from create-poll.ts: zod validation, authentication,
insert of the poll row, insert of the option rows, and on an option
insert failure a compensating delete of the just-created poll row. -/
def createPoll (db : DB) (currentUser : Option Nat) (data : PollInput) :
    CreatePollResponse × DB :=
  match pollSchemaParse data with
  | none => (⟨false, none, some "Invalid poll data provided."⟩, db)
  | some parsed =>
    match currentUser with
    | none => (⟨false, none, some "You must be logged in to create a poll"⟩, db)
    | some uid =>
      match insertPollRow db parsed.title (descriptionOrNull parsed.description) uid with
      | .error _ => (⟨false, none, some "Failed to create poll"⟩, db)
      | .ok (poll, db1) =>
        match insertOptionRows db1 poll.id (parsed.options.map (fun o => o.text)) with
        | .error _ =>
          (⟨false, none, some "Failed to create poll options"⟩,
           deletePollRow db1 poll.id)
        | .ok db2 => (⟨true, some poll.id, none⟩, db2)

/-- validatePollData from poll-actions.ts: non-empty trimmed title, at
least two options, every option text trimmed non-empty. Returns the
error message of the first failing check, none when valid. -/
def validatePollData (data : PollInput) : Option String :=
  if (strTrim data.title).length == 0 then some "Poll title is required"
  else if data.options.length < 2 then some "At least two options are required"
  else if data.options.any (fun o => (strTrim o.text).length == 0) then
    some "Option text cannot be empty"
  else none

/-- verifyPollOwnership from poll-actions.ts: authentication, existence
of the poll (via .single()), and created_by equality. -/
def verifyPollOwnership (db : DB) (currentUser : Option Nat) (pid : Nat) :
    Except String Nat :=
  match currentUser with
  | none => .error "You must be logged in to manage polls"
  | some uid =>
    match db.polls.find? (fun p => p.id == pid) with
    | none => .error "Poll not found"
    | some p =>
      if p.created_by == uid then .ok uid
      else .error "You can only manage your own polls"

/-- updatePoll from poll-actions.ts: validation, ownership check, update
of the poll row, deletion of all existing options (cascading their
votes), then insertion of the new options. The four store statements are
issued separately; there is no enclosing transaction. -/
def updatePoll (db : DB) (currentUser : Option Nat) (pid : Nat)
    (data : PollInput) : ActionResponse × DB :=
  match validatePollData data with
  | some msg => (⟨false, some msg⟩, db)
  | none =>
    match verifyPollOwnership db currentUser pid with
    | .error msg => (⟨false, some msg⟩, db)
    | .ok _ =>
      match updatePollRow db pid data.title (descriptionOrNull data.description) with
      | .error _ => (⟨false, some "Failed to update poll"⟩, db)
      | .ok db1 =>
        let db2 := deleteOptionsOfPoll db1 pid
        match insertOptionRows db2 pid (data.options.map (fun o => o.text)) with
        | .error _ => (⟨false, some "Failed to create poll options"⟩, db2)
        | .ok db3 => (⟨true, none⟩, db3)

/-- deletePoll from poll-actions.ts: ownership check then a single
cascading delete of the poll row. -/
def deletePoll (db : DB) (currentUser : Option Nat) (pid : Nat) :
    ActionResponse × DB :=
  match verifyPollOwnership db currentUser pid with
  | .error msg => (⟨false, some msg⟩, db)
  | .ok _ => (⟨true, none⟩, deletePollRow db pid)

/-- deleteComment from comment-actions.ts: after the authentication
check, a delete filtered on both the comment id and the current user id;
the result is reported as success whether or not any row matched. -/
def deleteComment (db : DB) (currentUser : Option Nat) (commentId : Nat) :
    ActionResponse × DB :=
  match currentUser with
  | none => (⟨false, some "User not authenticated"⟩, db)
  | some uid =>
    let remaining := db.comments.filter
      (fun c => !(c.id == commentId && c.user_id == uid))
    (⟨true, none⟩, { db with comments := remaining })

/-- Number of vote rows referencing the given option id:
COUNT(v.id) of the LEFT JOIN votes v ON po.id = v.poll_option_id. -/
def countVotesForOption (db : DB) (oid : Nat) : Nat :=
  (db.votes.filter (fun v => v.poll_option_id == oid)).length

/-- Row returned by the stored procedure get_options_with_vote_counts. -/
structure OptionWithCount where
  id : Nat
  poll_id : Nat
  option_text : String
  vote_count : Nat
deriving DecidableEq, Repr

/-- Ordering of the ORDER BY po.id clause. -/
def optionIdLE (a b : PollOption) : Prop := a.id ≤ b.id

instance : DecidableRel optionIdLE := fun a b => Nat.decLe a.id b.id

instance : IsTotal PollOption optionIdLE := ⟨fun a b => Nat.le_total a.id b.id⟩

instance : IsTrans PollOption optionIdLE :=
  ⟨fun _ _ _ h1 h2 => Nat.le_trans h1 h2⟩

/-- Stored procedure get_options_with_vote_counts from the schema: every
option of the poll, with the count of votes joined on the option id,
ordered by option id. An option with no votes appears with count 0
(left-outer semantics). -/
def get_options_with_vote_counts (db : DB) (pid : Nat) :
    List OptionWithCount :=
  (List.insertionSort optionIdLE
      (db.options.filter (fun o => o.poll_id == pid))).map
    (fun o => ⟨o.id, o.poll_id, o.option_text, countVotesForOption db o.id⟩)

/-- Formatted option of getPollById. -/
structure FormattedOption where
  id : Nat
  text : String
  poll_id : Nat
  votes : Nat
deriving DecidableEq, Repr

/-- Poll detail returned by getPollById. -/
structure PollDetail where
  id : Nat
  title : String
  description : Option String
  created_by : Nat
  options : List FormattedOption
  total_votes : Nat
deriving DecidableEq, Repr

/-- getPollById from get-polls.ts: fetches the poll row, calls the
stored procedure for the options with counts, and computes total_votes
as reduce((sum, opt) => sum + opt.votes, 0) over the formatted options. -/
def getPollById (db : DB) (pid : Nat) : Option PollDetail :=
  match db.polls.find? (fun p => p.id == pid) with
  | none => none
  | some p =>
    let formatted := (get_options_with_vote_counts db pid).map
      (fun o => (⟨o.id, o.option_text, o.poll_id, o.vote_count⟩ : FormattedOption))
    some ⟨p.id, p.title, p.description, p.created_by, formatted,
      formatted.foldl (fun sum opt => sum + opt.votes) 0⟩

end Polly

namespace Polly

/-! ## Invariants and derived views used by the claims -/

/-- Options of one poll, as selected by WHERE poll_id = pid. -/
def optionsOfPoll (db : DB) (pid : Nat) : List PollOption :=
  db.options.filter (fun o => o.poll_id == pid)

/-- Vote rows counted by the tally of a poll: those whose
poll_option_id references an option of the poll. -/
def votesViaOptions (db : DB) (pid : Nat) : List Vote :=
  db.votes.filter
    (fun v => (optionsOfPoll db pid).any (fun o => o.id == v.poll_option_id))

/-- Vote rows whose poll_id column is the given poll. -/
def votesByPollId (db : DB) (pid : Nat) : List Vote :=
  db.votes.filter (fun v => v.poll_id == pid)

/-- At most one vote row per (poll_id, user_id) pair: the invariant of
the unique_vote_per_poll constraint. -/
def VoteUniqueness (db : DB) : Prop :=
  List.Pairwise
    (fun v w => ¬(v.poll_id = w.poll_id ∧ v.user_id = w.user_id)) db.votes

/-- Every option id already allocated lies below the fresh-id counter. -/
def OptionIdsBounded (db : DB) : Prop :=
  ∀ o ∈ db.options, o.id < db.nextId

/-- Every option id referenced by a vote lies below the counter. -/
def VoteOptionIdsBounded (db : DB) : Prop :=
  ∀ v ∈ db.votes, v.poll_option_id < db.nextId

/-- Every vote whose referenced option row exists agrees with that row
on the poll: the cross-entity invariant the spec postulates between
votes.poll_id and the poll of votes.poll_option_id. The schema does not
enforce it. -/
def VotesConsistent (db : DB) : Prop :=
  ∀ v ∈ db.votes, ∀ o ∈ db.options, o.id = v.poll_option_id →
    o.poll_id = v.poll_id

/-- Every vote references an existing option row (the FK on
votes.poll_option_id). -/
def VoteOptionFK (db : DB) : Prop :=
  ∀ v ∈ db.votes, ∃ o ∈ db.options, o.id = v.poll_option_id

/-! ## Concrete states used by witnesses and counterexamples -/

/-- Empty store. -/
def exDb0 : DB := ⟨[], [], [], [], 0⟩

/-- A store with two polls of user 100, a vote of user 200 on poll 1,
and a comment of user 300. -/
def exDb1 : DB :=
  { polls := [⟨1, "Lang?", none, 100⟩, ⟨2, "Other", none, 100⟩],
    options := [⟨10, 1, "Go"⟩, ⟨11, 1, "Rust"⟩, ⟨20, 2, "X"⟩, ⟨21, 2, "Y"⟩],
    votes := [⟨30, 1, 10, 200⟩],
    comments := [⟨50, 1, 300, "hi"⟩],
    nextId := 60 }

/-- The store reached from exDb1 after user 201 votes on poll 1 through
option 20, which belongs to poll 2 (submitVote accepts this). -/
def exDbX : DB :=
  { polls := [⟨1, "Lang?", none, 100⟩, ⟨2, "Other", none, 100⟩],
    options := [⟨10, 1, "Go"⟩, ⟨11, 1, "Rust"⟩, ⟨20, 2, "X"⟩, ⟨21, 2, "Y"⟩],
    votes := [⟨30, 1, 10, 200⟩, ⟨60, 1, 20, 201⟩],
    comments := [⟨50, 1, 300, "hi"⟩],
    nextId := 61 }

/-! ## Helper lemmas -/

/-- Inversion of a successful vote insert. -/
lemma insertVoteRow_ok {db : DB} {pid oid uid : Nat} {db2 : DB}
    (h : insertVoteRow db pid oid uid = .ok db2) :
    hasVote db pid uid = false ∧
    db2 = { db with votes := db.votes ++ [⟨db.nextId, pid, oid, uid⟩],
                    nextId := db.nextId + 1 } := by
  unfold insertVoteRow at h
  split at h
  · cases h
  · split at h
    · cases h
    · split at h
      · cases h
      · rename_i hv
        exact ⟨Bool.eq_false_iff.mpr hv, (Except.ok.injEq _ _).mp h |>.symm⟩

/-- Inversion of a successful multi-row option insert. -/
lemma insertOptionRows_ok {db : DB} {pid : Nat} {texts : List String}
    {db2 : DB} (h : insertOptionRows db pid texts = .ok db2) :
    db2 = { db with
      options := db.options ++ freshOptions pid texts db.nextId,
      nextId := db.nextId + texts.length } := by
  unfold insertOptionRows at h
  split at h
  · cases h
  · split at h
    · cases h
    · split at h
      · cases h
      · split at h
        · cases h
        · exact ((Except.ok.injEq _ _).mp h).symm

/-- Inversion of a successful poll-row update. -/
lemma updatePollRow_ok {db : DB} {pid : Nat} {title : String}
    {descr : Option String} {db1 : DB}
    (h : updatePollRow db pid title descr = .ok db1) :
    db1 = { db with polls := db.polls.map (fun p =>
      if p.id == pid then { p with title := title, description := descr }
      else p) } := by
  unfold updatePollRow at h
  split at h
  · cases h
  · exact ((Except.ok.injEq _ _).mp h).symm

/-- A successful updatePoll decomposes into a successful poll-row
update, the option deletion, and a successful option insert. -/
lemma updatePoll_success {db : DB} {cu : Option Nat} {pid : Nat}
    {data : PollInput}
    (h : (updatePoll db cu pid data).1.success = true) :
    ∃ db1, updatePollRow db pid data.title
        (descriptionOrNull data.description) = .ok db1 ∧
      insertOptionRows (deleteOptionsOfPoll db1 pid) pid
        (data.options.map (fun o => o.text)) =
        .ok (updatePoll db cu pid data).2 := by
  unfold updatePoll at h ⊢
  split at h
  · simp at h
  · split at h
    · simp at h
    · split at h
      · simp at h
      · rename_i db1 hdb1
        dsimp only [] at h
        split at h
        · simp at h
        · rename_i db3 hdb3
          exact ⟨db1, hdb1, by simp [hdb3]⟩

/-- Texts of a fresh option batch. -/
lemma freshOptions_map_text (pid : Nat) (texts : List String) (s : Nat) :
    (freshOptions pid texts s).map (fun o => o.option_text) = texts := by
  induction texts generalizing s with
  | nil => rfl
  | cons t ts ih => simp [freshOptions, ih]

/-- Every fresh option carries the target poll id. -/
lemma freshOptions_poll_id {pid : Nat} {texts : List String} {s : Nat} :
    ∀ o ∈ freshOptions pid texts s, o.poll_id = pid := by
  induction texts generalizing s with
  | nil => intro o ho; cases ho
  | cons t ts ih =>
    intro o ho
    rcases List.mem_cons.mp ho with ho | ho
    · subst ho; rfl
    · exact ih o ho

/-- Every fresh option id is at least the starting counter. -/
lemma freshOptions_id_ge {pid : Nat} {texts : List String} {s : Nat} :
    ∀ o ∈ freshOptions pid texts s, s ≤ o.id := by
  induction texts generalizing s with
  | nil => intro o ho; cases ho
  | cons t ts ih =>
    intro o ho
    rcases List.mem_cons.mp ho with ho | ho
    · subst ho; exact Nat.le_refl s
    · exact Nat.le_of_succ_le (ih o ho)

/-- Filtering a fresh batch on its own poll id keeps everything. -/
lemma freshOptions_filter_pid (pid : Nat) (texts : List String) (s : Nat) :
    (freshOptions pid texts s).filter (fun o => o.poll_id == pid) =
      freshOptions pid texts s :=
  List.filter_eq_self.mpr (fun o ho => by
    simp [freshOptions_poll_id o ho])

/-- Folding the vote counts of a formatted option list equals the
accumulator plus the sum of the counts. -/
lemma foldl_votes_eq_sum (l : List FormattedOption) (n : Nat) :
    l.foldl (fun sum opt => sum + opt.votes) n =
      n + (l.map (fun o => o.votes)).sum := by
  induction l generalizing n with
  | nil => simp
  | cons x xs ih => simp [ih, Nat.add_assoc]

/-- Length of a filter by a disjunction of disjoint predicates. -/
lemma length_filter_or_disjoint {α : Type} (l : List α) (p q : α → Bool)
    (h : ∀ a ∈ l, ¬(p a = true ∧ q a = true)) :
    (l.filter (fun a => p a || q a)).length =
      (l.filter p).length + (l.filter q).length := by
  induction l with
  | nil => rfl
  | cons x xs ih =>
    have hx := h x (List.mem_cons_self x xs)
    have hxs : ∀ a ∈ xs, ¬(p a = true ∧ q a = true) :=
      fun a ha => h a (List.mem_cons_of_mem x ha)
    cases hp : p x <;> cases hq : q x <;>
      simp [List.filter_cons, hp, hq, ih hxs, Nat.add_assoc, Nat.add_comm,
        Nat.add_left_comm]
    · exact absurd ⟨hp, hq⟩ hx

/-- Summing per-option vote counts over options with distinct ids counts
exactly the votes referencing one of those options. -/
lemma sum_counts_eq_filter_any (votes : List Vote) :
    ∀ opts : List PollOption, (opts.map (fun o => o.id)).Nodup →
      (opts.map (fun o =>
        (votes.filter (fun v => v.poll_option_id == o.id)).length)).sum =
      (votes.filter
        (fun v => opts.any (fun o => o.id == v.poll_option_id))).length := by
  intro opts
  induction opts with
  | nil => intro _; simp
  | cons o os ih =>
    intro hnd
    have hnd' : (os.map (fun o => o.id)).Nodup := (List.nodup_cons.mp hnd).2
    have hhead : o.id ∉ os.map (fun o => o.id) := (List.nodup_cons.mp hnd).1
    have hdisj : ∀ v ∈ votes,
        ¬((v.poll_option_id == o.id) = true ∧
          (os.any (fun o2 => o2.id == v.poll_option_id)) = true) := by
      intro v _ ⟨h1, h2⟩
      rw [beq_iff_eq] at h1
      rcases List.any_eq_true.mp h2 with ⟨o2, ho2, he⟩
      rw [beq_iff_eq] at he
      exact hhead (List.mem_map.mpr ⟨o2, ho2, by rw [he, h1]⟩)
    have := length_filter_or_disjoint votes
      (fun v => v.poll_option_id == o.id)
      (fun v => os.any (fun o2 => o2.id == v.poll_option_id)) hdisj
    calc ((o :: os).map (fun o =>
            (votes.filter (fun v => v.poll_option_id == o.id)).length)).sum
        = (votes.filter (fun v => v.poll_option_id == o.id)).length +
            (os.map (fun o =>
              (votes.filter (fun v => v.poll_option_id == o.id)).length)).sum := by
          simp
      _ = (votes.filter (fun v => v.poll_option_id == o.id)).length +
            (votes.filter
              (fun v => os.any (fun o2 => o2.id == v.poll_option_id))).length := by
          rw [ih hnd']
      _ = (votes.filter (fun v =>
            (v.poll_option_id == o.id) ||
              os.any (fun o2 => o2.id == v.poll_option_id))).length := by
          rw [this]
      _ = (votes.filter (fun v =>
            (o :: os).any (fun o2 => o2.id == v.poll_option_id))).length := by
          apply congrArg
          apply List.filter_congr
          intro v _
          simp [List.any_cons, Bool.or_comm,
            show (v.poll_option_id == o.id) = (o.id == v.poll_option_id) by
              cases Nat.decEq v.poll_option_id o.id with
              | isTrue h => simp [h]
              | isFalse h => simp [h, Ne.symm h]]

end Polly

namespace Polly

/-! ## Claim C1 -/

/-- C1: when a vote row for (P, U) already exists, submitVote for
(P, any option of P, U) fails with the typed already-voted error that
translates the uniqueness violation (SQLSTATE 23505) of
unique_vote_per_poll, leaves the store unchanged, and in general
submitVote preserves the at-most-one-vote-per-(poll, voter) invariant. -/
theorem submitVote_duplicate_rejected :
    (∀ (db : DB) (P O U : Nat) (opt : PollOption) (prior : Vote),
      prior ∈ db.votes → prior.poll_id = P → prior.user_id = U →
      pollExists db P = true → opt ∈ db.options → opt.id = O →
      opt.poll_id = P →
      submitVote db (some U) P O =
        (⟨false, some "You have already voted on this poll."⟩, db))
    ∧ (∀ (db : DB) (cu : Option Nat) (P O : Nat),
        VoteUniqueness db → VoteUniqueness (submitVote db cu P O).2) := by
  constructor
  · intro db P O U opt prior hpr hpid huid hpoll hopt hoid _
    have hOpt : optionExists db O = true :=
      List.any_eq_true.mpr ⟨opt, hopt, by simp [hoid]⟩
    have hHas : hasVote db P U = true :=
      List.any_eq_true.mpr ⟨prior, hpr, by simp [hpid, huid]⟩
    simp [submitVote, insertVoteRow, hpoll, hOpt, hHas]
  · intro db cu P O hu
    match cu with
    | none => simpa [submitVote] using hu
    | some uid =>
      cases h : insertVoteRow db P O uid with
      | error e =>
        cases e <;> simpa [submitVote, h] using hu
      | ok db2 =>
        obtain ⟨hno, hdb2⟩ := insertVoteRow_ok h
        have h2 : (submitVote db (some uid) P O).2 = db2 := by
          simp [submitVote, h]
        rw [h2, hdb2]
        unfold VoteUniqueness at hu ⊢
        rw [List.pairwise_append]
        refine ⟨hu, by simp, ?_⟩
        intro a ha b hb
        rcases List.mem_singleton.mp hb with rfl
        rintro ⟨hp, hu2⟩
        have := List.any_eq_false.mp hno a ha
        simp [hp, hu2] at this

/-- Witness for C1: user 200 already voted on poll 1 in exDb1, so a
second vote through option 11 of poll 1 is rejected without change. -/
theorem submitVote_duplicate_rejected_witness :
    submitVote exDb1 (some 200) 1 11 =
      (⟨false, some "You have already voted on this poll."⟩, exDb1) :=
  submitVote_duplicate_rejected.1 exDb1 1 11 200 ⟨11, 1, "Rust"⟩
    ⟨30, 1, 10, 200⟩ (by decide) rfl rfl (by decide) (by decide) rfl rfl

/-! ## Claim C2 -/

/-- C2 counterexample: option 20 belongs to poll 2, yet a vote on poll 1
through option 20 by user 201 (who has no vote on poll 1) succeeds and
inserts the vote row, instead of failing with a validation error. -/
theorem submitVote_cross_poll_counterexample :
    (⟨20, 2, "X"⟩ : PollOption) ∈ exDb1.options ∧
    (∀ v ∈ exDb1.votes, ¬(v.poll_id = 1 ∧ v.user_id = 201)) ∧
    (submitVote exDb1 (some 201) 1 20).1 = ⟨true, none⟩ ∧
    (⟨60, 1, 20, 201⟩ : Vote) ∈ (submitVote exDb1 (some 201) 1 20).2.votes := by
  decide

/-- C2 amended: submitVote performs no option-belongs-to-poll check.
Whenever the option id references an existing option row — even one of a
different poll — the poll exists, and the voter has no vote on the poll
yet, the vote is inserted and the call succeeds. -/
theorem submitVote_ignores_option_poll (db : DB) (P O U : Nat)
    (opt : PollOption) (hopt : opt ∈ db.options) (hoid : opt.id = O)
    (hcross : opt.poll_id ≠ P) (hpoll : pollExists db P = true)
    (hno : hasVote db P U = false) :
    submitVote db (some U) P O =
      (⟨true, none⟩,
       { db with votes := db.votes ++ [⟨db.nextId, P, O, U⟩],
                 nextId := db.nextId + 1 }) := by
  have hOpt : optionExists db O = true :=
    List.any_eq_true.mpr ⟨opt, hopt, by simp [hoid]⟩
  simp [submitVote, insertVoteRow, hpoll, hOpt, hno]

/-- Witness for the amended C2: the cross-poll vote on exDb1 goes
through and produces exDbX. -/
theorem submitVote_ignores_option_poll_witness :
    submitVote exDb1 (some 201) 1 20 = (⟨true, none⟩, exDbX) := by
  have h := submitVote_ignores_option_poll exDb1 1 20 201 ⟨20, 2, "X"⟩
    (by decide) rfl (by decide) (by decide) (by decide)
  rw [h]; decide

/-! ## Claim C10 -/

/-- C10: deleteComment by an authenticated user on a comment authored by
someone else reports success while deleting nothing, because the delete
statement is filtered on user_id = current user. -/
theorem deleteComment_nonauthor_noop (db : DB) (U cid : Nat)
    (h : ∀ c ∈ db.comments, c.id = cid → c.user_id ≠ U) :
    deleteComment db (some U) cid = (⟨true, none⟩, db) := by
  have hfix : db.comments.filter
      (fun c => !(c.id == cid && c.user_id == U)) = db.comments := by
    apply List.filter_eq_self.mpr
    intro c hc
    by_cases hid : c.id = cid
    · simp [hid, h c hc hid]
    · simp [hid]
  show ((⟨true, none⟩ : ActionResponse), { db with comments := db.comments.filter (fun c => !(c.id == cid && c.user_id == U)) }) = ((⟨true, none⟩ : ActionResponse), db)
  rw [hfix]

/-- Witness for C10: user 999 deletes comment 50 of user 300 in exDb1;
the call succeeds and the store is unchanged. -/
theorem deleteComment_nonauthor_noop_witness :
    deleteComment exDb1 (some 999) 50 = (⟨true, none⟩, exDb1) :=
  deleteComment_nonauthor_noop exDb1 999 50 (by decide)

end Polly

namespace Polly

/-! ## Claim C5 -/

/-- C5: the tally of a poll has exactly one entry per option of the
poll, every option of the poll appears with its vote count (an option
with no votes appears with count 0 rather than being absent), no foreign
entries appear, and the entries are ordered by option id. -/
theorem tally_complete_ordered (db : DB) (pid : Nat) :
    ((get_options_with_vote_counts db pid).map (fun e => e.id)).Sorted (· ≤ ·)
    ∧ (get_options_with_vote_counts db pid).length =
        (optionsOfPoll db pid).length
    ∧ (∀ o ∈ db.options, o.poll_id = pid →
        (⟨o.id, o.poll_id, o.option_text, countVotesForOption db o.id⟩ :
          OptionWithCount) ∈ get_options_with_vote_counts db pid)
    ∧ (∀ e ∈ get_options_with_vote_counts db pid, ∃ o ∈ db.options,
        o.poll_id = pid ∧
        e = ⟨o.id, o.poll_id, o.option_text, countVotesForOption db o.id⟩)
    ∧ (∀ o ∈ db.options, o.poll_id = pid →
        (∀ v ∈ db.votes, v.poll_option_id ≠ o.id) →
        (⟨o.id, o.poll_id, o.option_text, 0⟩ : OptionWithCount) ∈
          get_options_with_vote_counts db pid) := by
  have hmem : ∀ o ∈ db.options, o.poll_id = pid →
      (⟨o.id, o.poll_id, o.option_text, countVotesForOption db o.id⟩ :
        OptionWithCount) ∈ get_options_with_vote_counts db pid := by
    intro o ho hp
    have h1 : o ∈ db.options.filter (fun o => o.poll_id == pid) :=
      List.mem_filter.mpr ⟨ho, by simp [hp]⟩
    have h2 : o ∈ List.insertionSort optionIdLE
        (db.options.filter (fun o => o.poll_id == pid)) :=
      (List.perm_insertionSort optionIdLE _).mem_iff.mpr h1
    exact List.mem_map.mpr ⟨o, h2, rfl⟩
  refine ⟨?_, ?_, hmem, ?_, ?_⟩
  · have hs := List.sorted_insertionSort optionIdLE
      (db.options.filter (fun o => o.poll_id == pid))
    unfold get_options_with_vote_counts
    rw [List.map_map]
    exact List.pairwise_map.mpr hs
  · simp [get_options_with_vote_counts, optionsOfPoll]
  · intro e he
    rcases List.mem_map.mp he with ⟨o, ho, rfl⟩
    have h1 : o ∈ db.options.filter (fun o => o.poll_id == pid) :=
      (List.perm_insertionSort optionIdLE _).mem_iff.mp ho
    rcases List.mem_filter.mp h1 with ⟨h2, h3⟩
    exact ⟨o, h2, by simpa using h3, rfl⟩
  · intro o ho hp hz
    have h0 : countVotesForOption db o.id = 0 := by
      unfold countVotesForOption
      rw [List.length_eq_zero, List.filter_eq_nil]
      intro v hv
      simp [hz v hv]
    have := hmem o ho hp
    rwa [h0] at this

/-- Witness for C5: in exDb1 option 11 of poll 1 has no votes and is
reported with count 0. -/
theorem tally_complete_ordered_witness :
    (⟨11, 1, "Rust", 0⟩ : OptionWithCount) ∈
      get_options_with_vote_counts exDb1 1 :=
  (tally_complete_ordered exDb1 1).2.2.2.2 ⟨11, 1, "Rust"⟩ (by decide) rfl
    (by decide)

/-! ## Claim C6 -/

/-- C6 counterexample: the options A and a normalize to the same text,
yet pollSchemaParse accepts the input, and createPoll proceeds to the
store: the poll row is written (the fresh-id counter advances) before
the unique_option_per_poll violation aborts the call with the storage
error message, not with the validation error. -/
theorem createPoll_duplicate_passes_validation :
    pollSchemaParse ⟨"T", none, [⟨"A"⟩, ⟨"a"⟩]⟩ =
      some ⟨"T", none, [⟨"A"⟩, ⟨"a"⟩]⟩ ∧
    normText "A" = normText "a" ∧
    createPoll exDb0 (some 100) ⟨"T", none, [⟨"A"⟩, ⟨"a"⟩]⟩ =
      (⟨false, none, some "Failed to create poll options"⟩,
       { exDb0 with nextId := 1 }) := by
  decide

/-- C6 amended: an empty trimmed title, fewer than two options, or an
option with empty trimmed text is rejected by validation with the typed
validation error before any store statement; options that merely
normalize (trim plus case-fold) to the same text are not caught by
validation but by the unique constraint of the store during option
insertion. -/
theorem createPoll_validation_rejects (db : DB) (cu : Option Nat)
    (data : PollInput)
    (h : (strTrim data.title).length = 0 ∨ data.options.length < 2 ∨
      ∃ o ∈ data.options, (strTrim o.text).length = 0) :
    createPoll db cu data =
      (⟨false, none, some "Invalid poll data provided."⟩, db) := by
  have hparse : pollSchemaParse data = none := by
    unfold pollSchemaParse
    split_ifs with h1 h2 h3
    · rfl
    · rfl
    · rfl
    · exfalso
      rcases h with h | h | ⟨o, ho, hoe⟩
      · exact absurd (by simp [h]) h1
      · exact h3 h
      · exact absurd (List.any_eq_true.mpr ⟨o, ho, by simp [hoe]⟩) h2
  simp [createPoll, hparse]

/-- Witness for the amended C6: a blank title is rejected with the
validation error and the store is untouched. -/
theorem createPoll_validation_rejects_witness :
    createPoll exDb1 (some 100) ⟨" ", none, [⟨"A"⟩, ⟨"B"⟩]⟩ =
      (⟨false, none, some "Invalid poll data provided."⟩, exDb1) :=
  createPoll_validation_rejects exDb1 (some 100) ⟨" ", none, [⟨"A"⟩, ⟨"B"⟩]⟩
    (Or.inl (by decide))

/-! ## Claim C7 -/

/-- Inversion of a successful poll-row insert. -/
lemma insertPollRow_ok {db : DB} {title : String} {descr : Option String}
    {uid : Nat} {poll : Poll} {db1 : DB}
    (h : insertPollRow db title descr uid = .ok (poll, db1)) :
    poll = ⟨db.nextId, title, descr, uid⟩ ∧
    db1 = { db with
      polls := db.polls ++ [⟨db.nextId, title, descr, uid⟩],
      nextId := db.nextId + 1 } := by
  unfold insertPollRow at h
  split at h
  · cases h
  · dsimp only [] at h
    simp only [Except.ok.injEq, Prod.mk.injEq] at h
    exact ⟨h.1.symm, h.2.symm⟩

/-- C7: whenever createPoll reports failure — in particular when the
option insert fails after the poll row was written — no new poll row
persists: the polls table afterward equals the polls table before. -/
theorem createPoll_no_orphan_poll (db : DB) (cu : Option Nat)
    (data : PollInput) (hfresh : ∀ p ∈ db.polls, p.id ≠ db.nextId)
    (hfail : (createPoll db cu data).1.success = false) :
    (createPoll db cu data).2.polls = db.polls := by
  cases hp : pollSchemaParse data with
  | none => simp [createPoll, hp]
  | some parsed =>
    cases cu with
    | none => simp [createPoll, hp]
    | some uid =>
      cases hq : insertPollRow db parsed.title
          (descriptionOrNull parsed.description) uid with
      | error e => simp [createPoll, hp, hq]
      | ok pair =>
        obtain ⟨poll, db1⟩ := pair
        obtain ⟨hpoll, hdb1⟩ := insertPollRow_ok hq
        cases hr : insertOptionRows db1 poll.id
            (parsed.options.map (fun o => o.text)) with
        | ok db2 => simp [createPoll, hp, hq, hr] at hfail
        | error e =>
          have hgoal : (createPoll db (some uid) data).2 =
              deletePollRow db1 poll.id := by
            simp [createPoll, hp, hq, hr]
          rw [hgoal, deletePollRow, hdb1, hpoll]
          have h1 : db.polls.filter (fun p => !(p.id == db.nextId)) =
              db.polls :=
            List.filter_eq_self.mpr (fun p hp2 => by simp [hfresh p hp2])
          simp [List.filter_append, h1]

/-- Witness for C7: creating a poll with options A and a on the empty
store fails at option insertion and leaves no poll row behind. -/
theorem createPoll_no_orphan_poll_witness :
    (createPoll exDb0 (some 100) ⟨"T", none, [⟨"A"⟩, ⟨"a"⟩]⟩).1.success =
      false ∧
    (createPoll exDb0 (some 100) ⟨"T", none, [⟨"A"⟩, ⟨"a"⟩]⟩).2.polls =
      exDb0.polls :=
  ⟨by decide,
   createPoll_no_orphan_poll exDb0 (some 100) ⟨"T", none, [⟨"A"⟩, ⟨"a"⟩]⟩
     (by decide) (by decide)⟩

/-! ## Claim C8 -/

/-- C8: updatePoll and deletePoll called by an authenticated actor who
is not the owner of the poll return the typed ownership error and leave
the whole store (polls, options, votes, comments) unchanged. -/
theorem nonowner_update_delete_rejected (db : DB) (A P : Nat)
    (data : PollInput) (p : Poll)
    (hfind : db.polls.find? (fun q => q.id == P) = some p)
    (howner : p.created_by ≠ A)
    (hvalid : validatePollData data = none) :
    updatePoll db (some A) P data =
      (⟨false, some "You can only manage your own polls"⟩, db) ∧
    deletePoll db (some A) P =
      (⟨false, some "You can only manage your own polls"⟩, db) := by
  have hown : verifyPollOwnership db (some A) P =
      .error "You can only manage your own polls" := by
    simp [verifyPollOwnership, hfind, howner]
  exact ⟨by simp [updatePoll, hvalid, hown], by simp [deletePoll, hown]⟩

/-- Witness for C8: user 999 can neither edit nor delete poll 1 of user
100 in exDb1, and the store stays as it was. -/
theorem nonowner_update_delete_rejected_witness :
    updatePoll exDb1 (some 999) 1 ⟨"T", none, [⟨"A"⟩, ⟨"B"⟩]⟩ =
      (⟨false, some "You can only manage your own polls"⟩, exDb1) ∧
    deletePoll exDb1 (some 999) 1 =
      (⟨false, some "You can only manage your own polls"⟩, exDb1) :=
  nonowner_update_delete_rejected exDb1 999 1 ⟨"T", none, [⟨"A"⟩, ⟨"B"⟩]⟩
    ⟨1, "Lang?", none, 100⟩ (by decide) (by decide) (by decide)

end Polly

namespace Polly

/-! ## Claim C9 -/

/-- C9 counterexample: updatePoll of poll 1 with two options normalizing
to the same text passes validation, deletes the existing options 10 and
11 (cascading the existing vote), then fails inserting the new options:
the call reports failure while poll 1 is left with zero options and its
previous options and votes are gone. -/
theorem updatePoll_partial_state_counterexample :
    (updatePoll exDb1 (some 100) 1 ⟨"T2", none, [⟨"A"⟩, ⟨"a"⟩]⟩).1.success =
      false ∧
    ((updatePoll exDb1 (some 100) 1 ⟨"T2", none, [⟨"A"⟩, ⟨"a"⟩]⟩).2.options.filter
      (fun o => o.poll_id == 1)) = [] ∧
    (updatePoll exDb1 (some 100) 1 ⟨"T2", none, [⟨"A"⟩, ⟨"a"⟩]⟩).2.votes = [] ∧
    exDb1.options.filter (fun o => o.poll_id == 1) =
      [⟨10, 1, "Go"⟩, ⟨11, 1, "Rust"⟩] ∧
    exDb1.votes = [⟨30, 1, 10, 200⟩] := by
  decide

/-- C9 amended: updatePoll is not transactional. A failure during
validation, authorization, or the poll-row update leaves the store
unchanged, but a failure while inserting the replacement options happens
after the old options and their votes were already deleted, leaving the
poll with zero options. -/
theorem updatePoll_failure_characterization (db : DB) (cu : Option Nat)
    (P : Nat) (data : PollInput)
    (hfail : (updatePoll db cu P data).1.success = false) :
    (updatePoll db cu P data).2 = db ∨
    ((updatePoll db cu P data).1.error =
        some "Failed to create poll options" ∧
      (updatePoll db cu P data).2.options.filter
        (fun o => o.poll_id == P) = []) := by
  cases hv : validatePollData data with
  | some msg => left; simp [updatePoll, hv]
  | none =>
    cases ho : verifyPollOwnership db cu P with
    | error msg => left; simp [updatePoll, hv, ho]
    | ok uid =>
      cases hu : updatePollRow db P data.title
          (descriptionOrNull data.description) with
      | error e => left; simp [updatePoll, hv, ho, hu]
      | ok db1 =>
        cases hi : insertOptionRows (deleteOptionsOfPoll db1 P) P
            (data.options.map (fun o => o.text)) with
        | ok db3 => exfalso; simp [updatePoll, hv, ho, hu, hi] at hfail
        | error e =>
          right
          have h1 : (updatePoll db cu P data).1 =
              ⟨false, some "Failed to create poll options"⟩ := by
            simp [updatePoll, hv, ho, hu, hi]
          have h2 : (updatePoll db cu P data).2 =
              deleteOptionsOfPoll db1 P := by
            simp [updatePoll, hv, ho, hu, hi]
          refine ⟨by rw [h1], ?_⟩
          rw [h2]
          show ((db1.options.filter (fun o => !(o.poll_id == P))).filter
            (fun o => o.poll_id == P)) = []
          rw [List.filter_filter]
          exact List.filter_eq_nil_iff.mpr (fun o _ => by simp)

/-- Witness for the amended C9: the failing replacement of the options
of poll 1 in exDb1 falls into the zero-options branch. -/
theorem updatePoll_failure_characterization_witness :
    (updatePoll exDb1 (some 100) 1 ⟨"T2", none, [⟨"A"⟩, ⟨"a"⟩]⟩).2 = exDb1 ∨
    ((updatePoll exDb1 (some 100) 1 ⟨"T2", none, [⟨"A"⟩, ⟨"a"⟩]⟩).1.error =
        some "Failed to create poll options" ∧
      (updatePoll exDb1 (some 100) 1 ⟨"T2", none, [⟨"A"⟩, ⟨"a"⟩]⟩).2.options.filter
        (fun o => o.poll_id == 1) = []) :=
  updatePoll_failure_characterization exDb1 (some 100) 1
    ⟨"T2", none, [⟨"A"⟩, ⟨"a"⟩]⟩ (by decide)

end Polly

namespace Polly

/-! ## Claim C3 -/

/-- C3 counterexample: exDbX is reachable from exDb1 by a submitVote
call and contains vote 60 on poll 1 through option 20 of poll 2. A
successful owner edit of poll 1 deletes only votes attached to options
of poll 1, so vote 60 — a previous Vote row for poll 1 — still exists
afterwards, contradicting the claim that no previous Vote row for the
poll survives. -/
theorem updatePoll_stale_vote_counterexample :
    (submitVote exDb1 (some 201) 1 20).2 = exDbX ∧
    (updatePoll exDbX (some 100) 1
      ⟨"Lang??", none, [⟨"Go"⟩, ⟨"Rust"⟩]⟩).1.success = true ∧
    (⟨60, 1, 20, 201⟩ : Vote).poll_id = 1 ∧
    (⟨60, 1, 20, 201⟩ : Vote) ∈ exDbX.votes ∧
    (⟨60, 1, 20, 201⟩ : Vote) ∈ (updatePoll exDbX (some 100) 1
      ⟨"Lang??", none, [⟨"Go"⟩, ⟨"Rust"⟩]⟩).2.votes := by
  decide

/-- C3 amended: after a successful updatePoll the option set of the poll
is exactly the newly supplied options (the old options are gone), every
previous vote that referenced an option of the poll is deleted by the
cascade, and the tally of the poll reports count 0 for every new option
and total 0. Previous votes of the poll that reference an option of a
different poll (possible because submitVote does not check option
ownership) are not removed. -/
theorem updatePoll_resets_options_and_tally (db : DB) (cu : Option Nat)
    (P : Nat) (data : PollInput)
    (hob : OptionIdsBounded db) (hvb : VoteOptionIdsBounded db)
    (hsucc : (updatePoll db cu P data).1.success = true) :
    ((updatePoll db cu P data).2.options.filter
        (fun o => o.poll_id == P)).map (fun o => o.option_text) =
      data.options.map (fun o => o.text)
    ∧ (∀ o ∈ db.options, o.poll_id = P →
        o ∉ (updatePoll db cu P data).2.options)
    ∧ (∀ v ∈ db.votes,
        (∃ o ∈ db.options, o.poll_id = P ∧ o.id = v.poll_option_id) →
        v ∉ (updatePoll db cu P data).2.votes)
    ∧ (∀ e ∈ get_options_with_vote_counts (updatePoll db cu P data).2 P,
        e.vote_count = 0)
    ∧ (∀ d, getPollById (updatePoll db cu P data).2 P = some d →
        d.total_votes = 0) := by
  obtain ⟨db1, hdb1, hins⟩ := updatePoll_success hsucc
  have hdb1o : db1.options = db.options := by rw [updatePollRow_ok hdb1]
  have hdb1v : db1.votes = db.votes := by rw [updatePollRow_ok hdb1]
  have hdb1n : db1.nextId = db.nextId := by rw [updatePollRow_ok hdb1]
  have hres := insertOptionRows_ok hins
  have hdb2o : (deleteOptionsOfPoll db1 P).options =
      db.options.filter (fun o => !(o.poll_id == P)) := by
    simp [deleteOptionsOfPoll, hdb1o]
  have hdb2v : (deleteOptionsOfPoll db1 P).votes =
      db.votes.filter (fun v =>
        !((db.options.filter (fun o => o.poll_id == P)).any
          (fun o => o.id == v.poll_option_id))) := by
    simp [deleteOptionsOfPoll, hdb1o, hdb1v]
  have hdb2n : (deleteOptionsOfPoll db1 P).nextId = db.nextId := by
    simp [deleteOptionsOfPoll, hdb1n]
  have hreso : (updatePoll db cu P data).2.options =
      db.options.filter (fun o => !(o.poll_id == P)) ++
        freshOptions P (data.options.map (fun o => o.text)) db.nextId := by
    rw [hres]
    show (deleteOptionsOfPoll db1 P).options ++
        freshOptions P (data.options.map (fun o => o.text))
          (deleteOptionsOfPoll db1 P).nextId = _
    rw [hdb2o, hdb2n]
  have hresv : (updatePoll db cu P data).2.votes =
      db.votes.filter (fun v =>
        !((db.options.filter (fun o => o.poll_id == P)).any
          (fun o => o.id == v.poll_option_id))) := by
    rw [hres]
    show (deleteOptionsOfPoll db1 P).votes = _
    rw [hdb2v]
  have hfopts : (updatePoll db cu P data).2.options.filter
      (fun o => o.poll_id == P) =
      freshOptions P (data.options.map (fun o => o.text)) db.nextId := by
    rw [hreso, List.filter_append, List.filter_filter,
      freshOptions_filter_pid]
    have hnil : List.filter
        (fun a : PollOption => a.poll_id == P && !(a.poll_id == P))
        db.options = [] :=
      List.filter_eq_nil_iff.mpr (fun o _ => by simp)
    rw [hnil, List.nil_append]
  have hzero : ∀ e ∈ get_options_with_vote_counts
      (updatePoll db cu P data).2 P, e.vote_count = 0 := by
    intro e he
    rcases List.mem_map.mp he with ⟨o, hos, rfl⟩
    have homem : o ∈ (updatePoll db cu P data).2.options.filter
        (fun o => o.poll_id == P) :=
      (List.perm_insertionSort optionIdLE _).mem_iff.mp hos
    rw [hfopts] at homem
    have hge : db.nextId ≤ o.id := freshOptions_id_ge o homem
    show countVotesForOption (updatePoll db cu P data).2 o.id = 0
    unfold countVotesForOption
    rw [List.length_eq_zero, List.filter_eq_nil_iff]
    intro v hv
    rw [hresv] at hv
    have hvdb : v ∈ db.votes := (List.mem_filter.mp hv).1
    have hlt : v.poll_option_id < db.nextId := hvb v hvdb
    simp [Nat.ne_of_lt (Nat.lt_of_lt_of_le hlt hge)]
  refine ⟨by rw [hfopts, freshOptions_map_text], ?_, ?_, hzero, ?_⟩
  · intro o ho hP hmem
    rw [hreso] at hmem
    rcases List.mem_append.mp hmem with h | h
    · have := (List.mem_filter.mp h).2
      simp [hP] at this
    · exact absurd (hob o ho) (Nat.not_lt.mpr (freshOptions_id_ge o h))
  · intro v hv hex hmem
    obtain ⟨o, ho, hoP, hoid⟩ := hex
    rw [hresv] at hmem
    have hpred := (List.mem_filter.mp hmem).2
    have hany : (db.options.filter (fun o => o.poll_id == P)).any
        (fun o => o.id == v.poll_option_id) = true :=
      List.any_eq_true.mpr ⟨o, List.mem_filter.mpr ⟨ho, by simp [hoP]⟩,
        by simp [hoid]⟩
    simp [hany] at hpred
  · intro d hd
    unfold getPollById at hd
    cases hfind : (updatePoll db cu P data).2.polls.find?
        (fun p => p.id == P) with
    | none => rw [hfind] at hd; cases hd
    | some p =>
      rw [hfind] at hd
      dsimp only [] at hd
      have hd2 := Option.some.inj hd
      subst hd2
      show ((get_options_with_vote_counts (updatePoll db cu P data).2 P).map
        (fun o => (⟨o.id, o.option_text, o.poll_id, o.vote_count⟩ :
          FormattedOption))).foldl (fun sum opt => sum + opt.votes) 0 = 0
      rw [foldl_votes_eq_sum, List.map_map]
      simp only [Nat.zero_add]
      apply List.sum_eq_zero
      intro x hx
      rcases List.mem_map.mp hx with ⟨e, he, rfl⟩
      exact hzero e he

/-- Witness for the amended C3: the owner edit of poll 1 in exDbX
replaces the options and zeroes the tally. -/
theorem updatePoll_resets_options_and_tally_witness :
    ((updatePoll exDbX (some 100) 1
        ⟨"Lang??", none, [⟨"Go"⟩, ⟨"Rust"⟩]⟩).2.options.filter
      (fun o => o.poll_id == 1)).map (fun o => o.option_text) =
      ["Go", "Rust"] ∧
    (∀ e ∈ get_options_with_vote_counts (updatePoll exDbX (some 100) 1
        ⟨"Lang??", none, [⟨"Go"⟩, ⟨"Rust"⟩]⟩).2 1, e.vote_count = 0) := by
  have h := updatePoll_resets_options_and_tally exDbX (some 100) 1
    ⟨"Lang??", none, [⟨"Go"⟩, ⟨"Rust"⟩]⟩
    (by unfold OptionIdsBounded; decide)
    (by unfold VoteOptionIdsBounded; decide) (by decide)
  exact ⟨h.1, h.2.2.2.1⟩

end Polly

namespace Polly

/-! ## Claim C4 -/

/-- C4 counterexample: exDbX is reachable from exDb1 by a submitVote
call and contains a vote with poll_id 1 that references option 20 of
poll 2. The tally of poll 1 joins votes through the options of poll 1,
so its total is 1, while the number of Vote rows whose poll_id is 1 is
2: the claimed equality fails. -/
theorem tally_total_counterexample :
    (submitVote exDb1 (some 201) 1 20).2 = exDbX ∧
    (getPollById exDbX 1).map (fun d => d.total_votes) = some 1 ∧
    (votesByPollId exDbX 1).length = 2 := by
  decide

/-- C4 amended: the per-option counts returned by the tally always sum
to the returned total, and the total equals the number of Vote rows
whose poll_option_id references an option of the poll; this equals the
number of Vote rows whose poll_id is the poll whenever every vote agrees
with its referenced option on the poll (the cross-entity invariant the
schema does not enforce). -/
theorem tally_total_eq_votes (db : DB) (pid : Nat) (d : PollDetail)
    (hd : getPollById db pid = some d)
    (hnd : ((optionsOfPoll db pid).map (fun o => o.id)).Nodup) :
    (d.options.map (fun o => o.votes)).sum = d.total_votes
    ∧ d.total_votes = (votesViaOptions db pid).length
    ∧ (VotesConsistent db → VoteOptionFK db →
        d.total_votes = (votesByPollId db pid).length) := by
  unfold getPollById at hd
  cases hfind : db.polls.find? (fun p => p.id == pid) with
  | none => rw [hfind] at hd; cases hd
  | some p =>
    rw [hfind] at hd
    dsimp only [] at hd
    have hd2 := Option.some.inj hd
    subst hd2
    have hkey : (((get_options_with_vote_counts db pid).map
        (fun o => (⟨o.id, o.option_text, o.poll_id, o.vote_count⟩ :
          FormattedOption))).map (fun o => o.votes)).sum =
        (votesViaOptions db pid).length := by
      rw [List.map_map]
      unfold get_options_with_vote_counts
      rw [List.map_map]
      show ((List.insertionSort optionIdLE
        (db.options.filter (fun o => o.poll_id == pid))).map
          (fun o => countVotesForOption db o.id)).sum =
        (votesViaOptions db pid).length
      have hperm : List.Perm
          ((List.insertionSort optionIdLE
            (db.options.filter (fun o => o.poll_id == pid))).map
              (fun o => countVotesForOption db o.id))
          ((db.options.filter (fun o => o.poll_id == pid)).map
            (fun o => countVotesForOption db o.id)) :=
        (List.perm_insertionSort optionIdLE _).map _
      rw [hperm.sum_eq]
      exact sum_counts_eq_filter_any db.votes (optionsOfPoll db pid) hnd
    refine ⟨?_, ?_, ?_⟩
    · dsimp only []
      rw [foldl_votes_eq_sum]
      simp
    · dsimp only []
      rw [foldl_votes_eq_sum, Nat.zero_add]
      exact hkey
    · intro hcons hfk
      have hfilters : votesViaOptions db pid = votesByPollId db pid := by
        unfold votesViaOptions votesByPollId
        apply List.filter_congr
        intro v hv
        rcases hfk v hv with ⟨o, ho, hoid⟩
        by_cases hvp : v.poll_id = pid
        · have hop : o.poll_id = pid := (hcons v hv o ho hoid).trans hvp
          have hany : (optionsOfPoll db pid).any
              (fun o2 => o2.id == v.poll_option_id) = true :=
            List.any_eq_true.mpr ⟨o, List.mem_filter.mpr
              ⟨ho, by simp [hop]⟩, by simp [hoid]⟩
          rw [hany]
          simp [hvp]
        · have hany : (optionsOfPoll db pid).any
              (fun o2 => o2.id == v.poll_option_id) = false := by
            rw [List.any_eq_false]
            intro o2 ho2
            rcases List.mem_filter.mp ho2 with ⟨ho2m, ho2p⟩
            have ho2pid : o2.poll_id = pid := by simpa using ho2p
            simp only [beq_iff_eq]
            intro heq
            exact hvp (((hcons v hv o2 ho2m heq).symm).trans ho2pid)
          rw [hany]
          simp [hvp]
      dsimp only []
      rw [foldl_votes_eq_sum, Nat.zero_add, hkey, hfilters]

/-- Witness for the amended C4: in exDb1 (where every vote references an
option of its own poll) the total of poll 1 equals the number of vote
rows with poll_id 1. -/
theorem tally_total_eq_votes_witness :
    (⟨1, "Lang?", none, 100, [⟨10, "Go", 1, 1⟩, ⟨11, "Rust", 1, 0⟩], 1⟩ :
      PollDetail).total_votes = (votesByPollId exDb1 1).length :=
  (tally_total_eq_votes exDb1 1
      ⟨1, "Lang?", none, 100, [⟨10, "Go", 1, 1⟩, ⟨11, "Rust", 1, 0⟩], 1⟩
      (by decide) (by decide)).2.2
    (by unfold VotesConsistent; decide) (by unfold VoteOptionFK; decide)

end Polly
